import Mathlib

/-!
Verification development for the OpenLCD firmware core
(`src/firmware/Sample_Test_OLED/settings.h` plus the command-interpreter
and settings-registry behaviour described in the specification).

Constants are embedded verbatim from `settings.h`.  The command
interpreter, settings registry and non-volatile store are not present in
the visible source; they are modelled from the specification, each such
definition carrying a doc comment starting `Modelled from the spec:`.
-/

namespace OpenLCD

/-! ## Constants from `settings.h` -/

-- Baud rate level codes (settings.h lines 24-36)
def BAUD_1200 : Nat := 0
def BAUD_2400 : Nat := 1
def BAUD_4800 : Nat := 2
def BAUD_9600 : Nat := 3
def BAUD_14400 : Nat := 4
def BAUD_19200 : Nat := 5
def BAUD_38400 : Nat := 6
def BAUD_57600 : Nat := 7
def BAUD_115200 : Nat := 8
def BAUD_230400 : Nat := 9
def BAUD_460800 : Nat := 10
def BAUD_921600 : Nat := 11
def BAUD_1000000 : Nat := 12

-- Defaults (settings.h lines 38-45)
def DEFAULT_TWI_ADDRESS : Nat := 0x72
def DEFAULT_BAUD : Nat := BAUD_9600
def DEFAULT_BRIGHTNESS : Nat := 255
def DEFAULT_LINES : Nat := 2
def DEFAULT_WIDTH : Nat := 16
def DEFAULT_SPLASH : Nat := 1
def DEFAULT_CONTRAST : Nat := 20

-- Internal EEPROM locations for the user settings (settings.h lines 48-61)
def LOCATION_BAUD : Nat := 0
def LOCATION_TWI : Nat := 1
def LOCATION_SPLASH_ONOFF : Nat := 2
def LOCATION_LINES : Nat := 3
def LOCATION_WIDTH : Nat := 4
def LOCATION_RED_BRIGHTNESS : Nat := 5
def LOCATION_GREEN_BRIGHTNESS : Nat := 6
def LOCATION_BLUE_BRIGHTNESS : Nat := 7
def LOCATION_IGNORE_RX : Nat := 8
def LOCATION_TWI_ADDRESS : Nat := 9
def LOCATION_CONTRAST : Nat := 10
def LOCATION_SPLASH_CONTENT : Nat := 20    -- 4*20 = 80 bytes wide
def LOCATION_CUSTOM_CHARACTERS : Nat := 100 -- 8*8 = 64 bytes wide

-- Command escape bytes (settings.h lines 64-65)
def SPECIAL_COMMAND : Nat := 254
def SPECIAL_SETTING : Nat := 124  -- the pipe character | = 0x7C

-- Backlight composite command band minima (settings.h lines 67-69)
def SPECIAL_RED_MIN : Nat := 128
def SPECIAL_GREEN_MIN : Nat := SPECIAL_RED_MIN + 30
def SPECIAL_BLUE_MIN : Nat := SPECIAL_GREEN_MIN + 30

-- Color backlight indices (settings.h lines 72-74)
def RED : Nat := 0
def BLUE : Nat := 1
def GREEN : Nat := 2

-- Buffer sizes (settings.h lines 76-77)
def BUFFER_SIZE : Nat := 64
def DISPLAY_BUFFER_SIZE : Nat := 80

/-! ## Persisted-settings layout (claim C1) -/

/-- The eleven scalar-field EEPROM offsets, in declaration order. -/
def scalarLocations : List Nat :=
  [LOCATION_BAUD, LOCATION_TWI, LOCATION_SPLASH_ONOFF, LOCATION_LINES,
   LOCATION_WIDTH, LOCATION_RED_BRIGHTNESS, LOCATION_GREEN_BRIGHTNESS,
   LOCATION_BLUE_BRIGHTNESS, LOCATION_IGNORE_RX, LOCATION_TWI_ADDRESS,
   LOCATION_CONTRAST]

/-- Every persisted field as an (offset, width) range: the scalars are one
byte wide, the splash text block is 80 bytes, the glyph block 64 bytes. -/
def fieldRanges : List (Nat × Nat) :=
  scalarLocations.map (fun o => (o, 1)) ++
    [(LOCATION_SPLASH_CONTENT, DISPLAY_BUFFER_SIZE),
     (LOCATION_CUSTOM_CHARACTERS, 64)]

/-- Two (offset, width) ranges are disjoint when neither starts inside the
other. -/
def rangesDisjoint (r s : Nat × Nat) : Bool :=
  (r.1 + r.2 ≤ s.1) || (s.1 + s.2 ≤ r.1)

/-- A byte offset `a` lies inside the range `r`. -/
def inRange (a : Nat) (r : Nat × Nat) : Bool :=
  (r.1 ≤ a) && (a < r.1 + r.2)

/-- C1: the persisted-settings layout is fixed and non-overlapping: every
scalar field occupies a single one-byte offset in 0..10, the 80-byte splash
text block occupies offsets 20..99, the 64-byte glyph block occupies
offsets 100..163, and no two fields share any offset. -/
theorem layout_fixed_and_disjoint :
    (∀ o ∈ scalarLocations, o ≤ 10) ∧
    scalarLocations.Nodup ∧
    scalarLocations.length = 11 ∧
    (LOCATION_SPLASH_CONTENT = 20 ∧
      LOCATION_SPLASH_CONTENT + DISPLAY_BUFFER_SIZE - 1 = 99) ∧
    (LOCATION_CUSTOM_CHARACTERS = 100 ∧
      LOCATION_CUSTOM_CHARACTERS + 64 - 1 = 163) ∧
    fieldRanges.Pairwise (fun r s => rangesDisjoint r s = true) := by
  decide

/-! ## Backlight composite bands (claim C3) -/

/-- C3: the backlight composite command bands are red 128..157,
green 158..187, blue 188..217: each band is exactly 30 codes wide, the
bands are contiguous, and the band minima are ordered red < green < blue. -/
theorem backlight_bands :
    SPECIAL_RED_MIN = 128 ∧ SPECIAL_GREEN_MIN = 158 ∧ SPECIAL_BLUE_MIN = 188 ∧
    SPECIAL_RED_MIN + 29 = 157 ∧ SPECIAL_GREEN_MIN + 29 = 187 ∧
    SPECIAL_BLUE_MIN + 29 = 217 ∧
    SPECIAL_GREEN_MIN - SPECIAL_RED_MIN = 30 ∧
    SPECIAL_BLUE_MIN - SPECIAL_GREEN_MIN = 30 ∧
    SPECIAL_RED_MIN + 30 = SPECIAL_GREEN_MIN ∧
    SPECIAL_GREEN_MIN + 30 = SPECIAL_BLUE_MIN ∧
    SPECIAL_RED_MIN < SPECIAL_GREEN_MIN ∧
    SPECIAL_GREEN_MIN < SPECIAL_BLUE_MIN := by
  decide

/-! ## Baud enumeration (claim C6) -/

/-- The thirteen baud level codes in declaration order. -/
def baudCodes : List Nat :=
  [BAUD_1200, BAUD_2400, BAUD_4800, BAUD_9600, BAUD_14400, BAUD_19200,
   BAUD_38400, BAUD_57600, BAUD_115200, BAUD_230400, BAUD_460800,
   BAUD_921600, BAUD_1000000]

/-- Modelled from the spec: the fixed baud-rate table indexed by the baud
codes; the actual rate values are taken from the code names (the table
itself is in the firmware body, which is not part of the visible source). -/
def baudRateTable : List Nat :=
  [1200, 2400, 4800, 9600, 14400, 19200, 38400, 57600, 115200, 230400,
   460800, 921600, 1000000]

/-- C6: the baud setting ranges over a fixed enumeration of 13 codes
BAUD_1200..BAUD_1000000 with consecutive values 0..12 indexing a fixed
baud-rate table, and the default code is the one for 9600 (index 3). -/
theorem baud_enumeration :
    baudCodes = List.range 13 ∧
    baudCodes.length = 13 ∧
    baudRateTable.length = 13 ∧
    DEFAULT_BAUD = BAUD_9600 ∧ BAUD_9600 = 3 ∧
    baudRateTable.get? DEFAULT_BAUD = some 9600 := by
  decide

/-! ## Buffer sizes (claim C10) -/

/-- C10: the incoming command buffer capacity (64 bytes) is strictly
smaller than the splash-content operand length (80 bytes), so the 80
operand bytes of a set-splash-content command can never all be resident in
the incoming buffer at once. -/
theorem buffer_smaller_than_splash :
    BUFFER_SIZE = 64 ∧ DISPLAY_BUFFER_SIZE = 80 ∧
    BUFFER_SIZE < DISPLAY_BUFFER_SIZE := by
  decide

/-! ## Settings registry (modelled from the spec, §4.1-§4.2) -/

/-- Modelled from the spec: the Non-Volatile Settings Store is
byte-addressable persistent storage, `read(offset) -> byte`,
`write(offset, value)`. -/
def Store : Type := Nat → Nat

/-- Modelled from the spec: `write(offset, value)` on the store. -/
def write (st : Store) (o v : Nat) : Store :=
  fun a => if a = o then v else st a

/-- The eleven scalar persisted fields of the Settings Registry. -/
inductive Field where
  | baud | twi | splashEnabled | lines | width
  | red | green | blue | ignoreRx | twiAddress | contrast
deriving DecidableEq, Fintype

/-- The EEPROM offset of each scalar field (from `settings.h`). -/
def loc : Field → Nat
  | .baud => LOCATION_BAUD
  | .twi => LOCATION_TWI
  | .splashEnabled => LOCATION_SPLASH_ONOFF
  | .lines => LOCATION_LINES
  | .width => LOCATION_WIDTH
  | .red => LOCATION_RED_BRIGHTNESS
  | .green => LOCATION_GREEN_BRIGHTNESS
  | .blue => LOCATION_BLUE_BRIGHTNESS
  | .ignoreRx => LOCATION_IGNORE_RX
  | .twiAddress => LOCATION_TWI_ADDRESS
  | .contrast => LOCATION_CONTRAST

/-- The documented default of each scalar field (from `settings.h`; the
channel brightness defaults come from `DEFAULT_BRIGHTNESS`, the `twi`
enable flag and `ignoreRx` default to off). -/
def defaultVal : Field → Nat
  | .baud => DEFAULT_BAUD
  | .twi => 0
  | .splashEnabled => DEFAULT_SPLASH
  | .lines => DEFAULT_LINES
  | .width => DEFAULT_WIDTH
  | .red => DEFAULT_BRIGHTNESS
  | .green => DEFAULT_BRIGHTNESS
  | .blue => DEFAULT_BRIGHTNESS
  | .ignoreRx => 0
  | .twiAddress => DEFAULT_TWI_ADDRESS
  | .contrast => DEFAULT_CONTRAST

/-- Modelled from the spec: the valid domain of each scalar field.  Baud is
one of the 13 codes; the TWI address is a valid 7-bit address excluding the
reserved ranges; boolean flags are 0 or 1; `lines` is 1, 2 or 4; the
remaining byte fields accept any byte. -/
def inDomain : Field → Nat → Bool
  | .baud, v => v ≤ 12
  | .twi, v => v ≤ 1
  | .splashEnabled, v => v ≤ 1
  | .lines, v => v = 1 || v = 2 || v = 4
  | .width, v => v ≤ 255
  | .red, v => v ≤ 255
  | .green, v => v ≤ 255
  | .blue, v => v ≤ 255
  | .ignoreRx, v => v ≤ 1
  | .twiAddress, v => 0x08 ≤ v && v ≤ 0x77
  | .contrast, v => v ≤ 255

/-- Modelled from the spec: the per-field part of `load()`: read the
field's offset; an out-of-range value is replaced by the field's default
(self-healing against corrupt storage). -/
def loadField (st : Store) (f : Field) : Nat :=
  if inDomain f (st (loc f)) then st (loc f) else defaultVal f

/-- Modelled from the spec: `apply(field, value)` range-checks and writes
through to the store; it returns failure (`none`) on an out-of-domain
value, leaving the prior state unchanged. -/
def apply (st : Store) (f : Field) (v : Nat) : Option Store :=
  if inDomain f v then some (write st (loc f) v) else none

/-- All eleven scalar fields. -/
def allFields : List Field :=
  [.baud, .twi, .splashEnabled, .lines, .width, .red, .green, .blue,
   .ignoreRx, .twiAddress, .contrast]

/-- Modelled from the spec: `factoryReset()` rewrites every scalar offset
to its documented default in one pass. -/
def factoryReset (st : Store) : Store :=
  allFields.foldl (fun s f => write s (loc f) (defaultVal f)) st

/-! ### Block fields (splash content, custom glyphs) -/

/-- The two multi-byte persisted blocks. -/
inductive BlockField where
  | splashContent | customGlyphs
deriving DecidableEq

/-- Starting offset of each block (from `settings.h`). -/
def blockLoc : BlockField → Nat
  | .splashContent => LOCATION_SPLASH_CONTENT
  | .customGlyphs => LOCATION_CUSTOM_CHARACTERS

/-- Byte length of each block (from `settings.h` comments: 80 and 64). -/
def blockLen : BlockField → Nat
  | .splashContent => DISPLAY_BUFFER_SIZE
  | .customGlyphs => 64

/-- Modelled from the spec: a block value is valid when it has exactly the
block's length and every element is a byte. -/
def blockInDomain (bf : BlockField) (vs : List Nat) : Bool :=
  (vs.length = blockLen bf) && vs.all (fun v => v ≤ 255)

/-- Modelled from the spec: write a list of bytes at consecutive offsets. -/
def writeBlock (st : Store) (o : Nat) : List Nat → Store
  | [] => st
  | v :: vs => writeBlock (write st o v) (o + 1) vs

/-- Modelled from the spec: read `n` bytes at consecutive offsets. -/
def readBlock (st : Store) (o : Nat) : Nat → List Nat
  | 0 => []
  | n + 1 => st o :: readBlock st (o + 1) n

/-- Modelled from the spec: the block part of `load()`. -/
def loadBlock (st : Store) (bf : BlockField) : List Nat :=
  readBlock st (blockLoc bf) (blockLen bf)

/-- Modelled from the spec: `apply` for a block field: length-checked
atomic commit of the whole block, failure on a malformed value. -/
def applyBlock (st : Store) (bf : BlockField) (vs : List Nat) : Option Store :=
  if blockInDomain bf vs then some (writeBlock st (blockLoc bf) vs) else none

/-- `writeBlock` leaves offsets below the write window unchanged. -/
theorem writeBlock_lt (vs : List Nat) (st : Store) (o a : Nat) (h : a < o) :
    writeBlock st o vs a = st a := by
  induction vs generalizing st o with
  | nil => rfl
  | cons v vs ih =>
    simp only [writeBlock]
    rw [ih (write st o v) (o + 1) (by omega)]
    simp [write, Nat.ne_of_lt h]

/-- Reading back a block just written returns the written list. -/
theorem readBlock_writeBlock (vs : List Nat) (st : Store) (o : Nat) :
    readBlock (writeBlock st o vs) o vs.length = vs := by
  induction vs generalizing st o with
  | nil => rfl
  | cons v vs ih =>
    simp only [writeBlock, List.length_cons, readBlock]
    rw [writeBlock_lt vs (write st o v) (o + 1) o (by omega),
      ih (write st o v) (o + 1)]
    simp [write]

/-! ## Factory reset then load (claim C5) -/

/-- C5: after `factoryReset()`, a subsequent `load()` returns every scalar
field equal to its documented default: `twiAddress = 0x72`, `baudCode` the
code for 9600, brightness 255 on every backlight channel, `contrast = 20`,
`lines = 2`, `width = 16`, splash enabled. -/
theorem factoryReset_load_defaults (st : Store) :
    loadField (factoryReset st) .twiAddress = 0x72 ∧
    loadField (factoryReset st) .baud = BAUD_9600 ∧
    loadField (factoryReset st) .red = 255 ∧
    loadField (factoryReset st) .green = 255 ∧
    loadField (factoryReset st) .blue = 255 ∧
    loadField (factoryReset st) .contrast = 20 ∧
    loadField (factoryReset st) .lines = 2 ∧
    loadField (factoryReset st) .width = 16 ∧
    loadField (factoryReset st) .splashEnabled = 1 ∧
    ∀ f : Field, loadField (factoryReset st) f = defaultVal f := by
  refine ⟨rfl, rfl, rfl, rfl, rfl, rfl, rfl, rfl, rfl, ?_⟩
  intro f
  cases f <;> rfl

/-! ## Apply/load round trip (claim C7) -/

/-- C7: for every field and value, an in-domain `apply(field, value)`
succeeds and a subsequent `load()` returns `value` for that field, while an
out-of-domain value makes `apply` return failure so the prior store (and
hence the value a subsequent `load()` returns) is unchanged; likewise for
the two block fields with their length-checked byte-list domains. -/
theorem apply_load_roundtrip (st : Store) (f : Field) (v : Nat)
    (bf : BlockField) (vs : List Nat) :
    (inDomain f v = true →
      ∃ st2, apply st f v = some st2 ∧ loadField st2 f = v) ∧
    (inDomain f v = false → apply st f v = none) ∧
    (blockInDomain bf vs = true →
      ∃ st2, applyBlock st bf vs = some st2 ∧ loadBlock st2 bf = vs) ∧
    (blockInDomain bf vs = false → applyBlock st bf vs = none) := by
  refine ⟨fun h => ?_, fun h => ?_, fun h => ?_, fun h => ?_⟩
  · refine ⟨write st (loc f) v, by simp [apply, h], ?_⟩
    simp [loadField, write, h]
  · simp [apply, h]
  · refine ⟨writeBlock st (blockLoc bf) vs, by simp [applyBlock, h], ?_⟩
    have hlen : vs.length = blockLen bf := by
      simp [blockInDomain] at h
      exact h.1
    rw [loadBlock, ← hlen]
    exact readBlock_writeBlock vs st (blockLoc bf)
  · simp [applyBlock, h]

/-- Witness for C7 at a concrete store and concrete inputs: the in-domain
branches succeed for `lines = 4` and an 80-byte splash block, and the
out-of-domain branches fail for `lines = 3` and a short block. -/
theorem apply_load_roundtrip_witness :
    (∃ st2, apply (fun _ => 0) .lines 4 = some st2 ∧ loadField st2 .lines = 4) ∧
    (apply (fun _ => 0) .lines 3 = none) ∧
    (∃ st2, applyBlock (fun _ => 0) .splashContent (List.replicate 80 65) = some st2 ∧
      loadBlock st2 .splashContent = List.replicate 80 65) ∧
    (applyBlock (fun _ => 0) .customGlyphs [1, 2, 3] = none) := by
  refine ⟨?_, ?_, ?_, ?_⟩
  · exact (apply_load_roundtrip (fun _ => 0) .lines 4 .splashContent []).1 (by decide)
  · exact ((apply_load_roundtrip (fun _ => 0) .lines 3 .splashContent []).2.1) (by decide)
  · exact ((apply_load_roundtrip (fun _ => 0) .baud 0 .splashContent
      (List.replicate 80 65)).2.2.1) (by decide)
  · exact ((apply_load_roundtrip (fun _ => 0) .baud 0 .customGlyphs
      [1, 2, 3]).2.2.2) (by decide)

/-! ## Command interpreter (modelled from the spec, §4.3) -/

/-- Modelled from the spec: the settings-kind selector bytes.  Only the
baud selector (0x04) is pinned by the spec (§8, end-to-end scenario 1); the
remaining kind codes are not visible in the source and are fixed here as
distinct representative values outside the backlight bands. -/
def KIND_BAUD : Nat := 0x04

/-- Modelled from the spec: kind selector for a TWI address change. -/
def KIND_TWI_ADDRESS : Nat := 0x19

/-- Modelled from the spec: kind selector for a contrast change. -/
def KIND_CONTRAST : Nat := 0x18

/-- Modelled from the spec: kind selector for a line-count change. -/
def KIND_LINES : Nat := 0x05

/-- Modelled from the spec: kind selector for a width change. -/
def KIND_WIDTH : Nat := 0x06

/-- Modelled from the spec: kind selector for the splash toggle. -/
def KIND_SPLASH_TOGGLE : Nat := 0x09

/-- Modelled from the spec: kind selector for setting the splash content. -/
def KIND_SPLASH_CONTENT : Nat := 0x0A

/-- Modelled from the spec: kind selector for setting a custom glyph. -/
def KIND_GLYPH : Nat := 0x1B

/-- Modelled from the spec: the operand arity of each recognized
non-backlight setting kind (§6: baud/TWI/contrast/lines/width one operand,
splash toggle none, splash content 80, glyph one slot byte plus 8 bitmap
bytes); `none` marks an unrecognized kind byte. -/
def kindArity (k : Nat) : Option Nat :=
  if k = KIND_BAUD then some 1
  else if k = KIND_TWI_ADDRESS then some 1
  else if k = KIND_CONTRAST then some 1
  else if k = KIND_LINES then some 1
  else if k = KIND_WIDTH then some 1
  else if k = KIND_SPLASH_TOGGLE then some 0
  else if k = KIND_SPLASH_CONTENT then some 80
  else if k = KIND_GLYPH then some 9
  else none

/-- A byte lies in the backlight composite bands 128..217. -/
def isBacklight (b : Nat) : Bool :=
  decide (SPECIAL_RED_MIN ≤ b ∧ b ≤ SPECIAL_BLUE_MIN + 29)

/-- Modelled from the spec: a kind byte the interpreter recognizes in the
AWAIT_SETTING_KIND state. -/
def recognizedKind (b : Nat) : Bool :=
  isBacklight b || (kindArity b).isSome

/-- The backlight channel field selected by a composite byte: spec §4.3
maps `[RED_MIN, RED_MIN+29]` to red, the next 30-wide band to green, the
next to blue. -/
def backlightTarget (b : Nat) : Field :=
  if b < SPECIAL_GREEN_MIN then .red
  else if b < SPECIAL_BLUE_MIN then .green
  else .blue

/-- Modelled from the spec: the intensity of a composite byte: the offset
within its band (0..29) scaled to 0..255. -/
def backlightIntensity (b : Nat) : Nat :=
  (if b < SPECIAL_GREEN_MIN then b - SPECIAL_RED_MIN
   else if b < SPECIAL_BLUE_MIN then b - SPECIAL_GREEN_MIN
   else b - SPECIAL_BLUE_MIN) * 255 / 29

/-- The band-order index of a backlight channel (red < green < blue). -/
def bandIndex : Field → Nat
  | .red => 0
  | .green => 1
  | .blue => 2
  | _ => 3

/-- Interpreter states (§4.3): TEXT, AWAIT_SPECIAL_COMMAND,
AWAIT_SETTING_KIND, and the kind-dependent operand-collection states. -/
inductive IState where
  | text
  | awaitSpecialCommand
  | awaitSettingKind
  | awaitOperand (kind : Nat) (needed : Nat) (collected : List Nat)
deriving DecidableEq

/-- Calls the interpreter makes into its collaborators. -/
inductive Output where
  | writeChar (b : Nat)
  | writeOpcode (b : Nat)
  | reconfigure (baudCode twiAddr : Nat)
deriving DecidableEq

/-- The interpreter paired with the settings store it mutates. -/
structure Machine where
  state : IState
  store : Store

/-- The interpreter's view of the persisted `ignoreRx` flag. -/
def ignoreRxSet (st : Store) : Bool :=
  loadField st .ignoreRx == 1

/-- `apply` a scalar setting, keeping the prior store on an out-of-domain
value (silent ignore, §7). -/
def applyOrKeep (st : Store) (f : Field) (v : Nat) : Store :=
  (apply st f v).getD st

/-- Modelled from the spec: committing a completed setting command.  A baud
or TWI-address change invokes the Transport Facade's reconfigure hook after
persisting (§4.3 step 4); the splash toggle flips the persisted flag; the
splash-content and glyph commands commit their collected operand blocks
atomically; malformed operands are silently ignored. -/
def commitSetting (st : Store) (k : Nat) (ops : List Nat) : Store × List Output :=
  if k = KIND_BAUD then
    match ops with
    | [v] =>
      match apply st .baud v with
      | some st2 =>
        (st2, [.reconfigure (loadField st2 .baud) (loadField st2 .twiAddress)])
      | none => (st, [])
    | _ => (st, [])
  else if k = KIND_TWI_ADDRESS then
    match ops with
    | [v] =>
      match apply st .twiAddress v with
      | some st2 =>
        (st2, [.reconfigure (loadField st2 .baud) (loadField st2 .twiAddress)])
      | none => (st, [])
    | _ => (st, [])
  else if k = KIND_CONTRAST then
    match ops with
    | [v] => (applyOrKeep st .contrast v, [])
    | _ => (st, [])
  else if k = KIND_LINES then
    match ops with
    | [v] => (applyOrKeep st .lines v, [])
    | _ => (st, [])
  else if k = KIND_WIDTH then
    match ops with
    | [v] => (applyOrKeep st .width v, [])
    | _ => (st, [])
  else if k = KIND_SPLASH_TOGGLE then
    (write st (loc .splashEnabled) (1 - loadField st .splashEnabled), [])
  else if k = KIND_SPLASH_CONTENT then
    ((applyBlock st .splashContent ops).getD st, [])
  else if k = KIND_GLYPH then
    match ops with
    | slot :: bitmap =>
      if slot ≤ 7 ∧ bitmap.length = 8 then
        (writeBlock st (LOCATION_CUSTOM_CHARACTERS + slot * 8) bitmap, [])
      else (st, [])
    | [] => (st, [])
  else (st, [])

/-- Modelled from the spec: the interpreter's one-byte transition (§4.3).
In TEXT the two escape bytes are recognized first (even under `ignoreRx`,
which suppresses display writes only); AWAIT_SPECIAL_COMMAND forwards the
byte verbatim as a controller opcode; AWAIT_SETTING_KIND classifies the
kind byte, applying backlight composites immediately and abandoning the
escape on an unrecognized kind (treating the byte as ordinary text);
operand collection commits on the final operand byte. -/
def step (m : Machine) (b : Nat) : Machine × List Output :=
  match m.state with
  | .text =>
    if b = SPECIAL_COMMAND then (⟨.awaitSpecialCommand, m.store⟩, [])
    else if b = SPECIAL_SETTING then (⟨.awaitSettingKind, m.store⟩, [])
    else if ignoreRxSet m.store then (⟨.text, m.store⟩, [])
    else (⟨.text, m.store⟩, [.writeChar b])
  | .awaitSpecialCommand => (⟨.text, m.store⟩, [.writeOpcode b])
  | .awaitSettingKind =>
    if isBacklight b then
      (⟨.text, write m.store (loc (backlightTarget b)) (backlightIntensity b)⟩, [])
    else
      match kindArity b with
      | some 0 =>
        let r := commitSetting m.store b []
        (⟨.text, r.1⟩, r.2)
      | some (n + 1) => (⟨.awaitOperand b (n + 1) [], m.store⟩, [])
      | none =>
        if ignoreRxSet m.store then (⟨.text, m.store⟩, [])
        else (⟨.text, m.store⟩, [.writeChar b])
  | .awaitOperand k needed collected =>
    if needed ≤ 1 then
      let r := commitSetting m.store k (collected ++ [b])
      (⟨.text, r.1⟩, r.2)
    else (⟨.awaitOperand k (needed - 1) (collected ++ [b]), m.store⟩, [])

/-- Field offsets are pairwise distinct. -/
theorem loc_injective : ∀ f g : Field, loc f = loc g → f = g := by
  decide

/-! ## Escape bytes (claim C2) -/

/-- C2: the two escape bytes of the protocol are exactly 0xFE (254,
direct-controller-command escape) and 0x7C (124, settings escape), and for
every byte received in TEXT state these and only these two values move the
interpreter out of TEXT (start an escape sequence). -/
theorem escape_bytes (st : Store) (b : Nat) :
    SPECIAL_COMMAND = 254 ∧ SPECIAL_SETTING = 124 ∧
    ((step ⟨.text, st⟩ b).1.state ≠ .text ↔ b = 254 ∨ b = 124) ∧
    (step ⟨.text, st⟩ 254).1.state = .awaitSpecialCommand ∧
    (step ⟨.text, st⟩ 124).1.state = .awaitSettingKind := by
  refine ⟨rfl, rfl, ?_, by simp [step, SPECIAL_COMMAND], ?_⟩
  · by_cases h1 : b = 254
    · subst h1
      simp [step, SPECIAL_COMMAND]
    · by_cases h2 : b = 124
      · subst h2
        simp [step, SPECIAL_COMMAND, SPECIAL_SETTING]
      · by_cases h3 : ignoreRxSet st
        · simp [step, SPECIAL_COMMAND, SPECIAL_SETTING, h1, h2, h3]
        · simp [step, SPECIAL_COMMAND, SPECIAL_SETTING, h1, h2, h3]
  · simp [step, SPECIAL_COMMAND, SPECIAL_SETTING]

/-! ## Literal text forwarding (claim C8) -/

/-- C8: every byte other than 0xFE and 0x7C received in TEXT state with
`ignoreRx` clear is forwarded unchanged to the Display Driver Facade
exactly once, and the interpreter stays in TEXT with the store untouched. -/
theorem text_forwarding (st : Store) (b : Nat)
    (hrx : loadField st .ignoreRx = 0)
    (h1 : b ≠ SPECIAL_COMMAND) (h2 : b ≠ SPECIAL_SETTING) :
    step ⟨.text, st⟩ b = (⟨.text, st⟩, [Output.writeChar b]) := by
  have hset : ignoreRxSet st = false := by
    simp [ignoreRxSet, hrx]
  simp [step, h1, h2, hset]

/-- Witness for C8: the byte 65 with an all-zero store. -/
theorem text_forwarding_witness :
    step ⟨.text, fun _ => 0⟩ 65 = (⟨.text, fun _ => 0⟩, [Output.writeChar 65]) :=
  text_forwarding (fun _ => 0) 65 rfl (by decide) (by decide)

/-! ## Unrecognized kind bytes (claim C9) -/

/-- C9: an unrecognized kind byte in AWAIT_SETTING_KIND abandons the
escape: the interpreter returns to TEXT with the store untouched and the
byte itself is forwarded as ordinary literal text (not dropped, no
lock-up). -/
theorem unrecognized_kind_failopen (st : Store) (b : Nat)
    (hk : recognizedKind b = false) (hrx : loadField st .ignoreRx = 0) :
    step ⟨.awaitSettingKind, st⟩ b = (⟨.text, st⟩, [Output.writeChar b]) := by
  unfold recognizedKind at hk
  rcases Bool.or_eq_false_iff.mp hk with ⟨hb, hs⟩
  have ha : kindArity b = none :=
    Option.not_isSome_iff_eq_none.mp (by simp [hs])
  have hset : ignoreRxSet st = false := by
    simp [ignoreRxSet, hrx]
  simp [step, hb, ha, hset]

/-- Witness for C9: the unrecognized kind byte 32 with an all-zero store. -/
theorem unrecognized_kind_failopen_witness :
    step ⟨.awaitSettingKind, fun _ => 0⟩ 32 =
      (⟨.text, fun _ => 0⟩, [Output.writeChar 32]) :=
  unrecognized_kind_failopen (fun _ => 0) 32 (by decide) rfl

/-! ## Backlight composite decoding (claim C4) -/

set_option maxRecDepth 4000 in
/-- Pure part of the composite decode, checked over the whole band range:
the selected channel's band index is `(v-128)/30` and the intensity is the
in-band offset scaled by 255/29. -/
theorem backlight_decode_pure : ∀ v : Nat, v < 218 → 128 ≤ v →
    (backlightTarget v = .red ∨ backlightTarget v = .green ∨
      backlightTarget v = .blue) ∧
    bandIndex (backlightTarget v) = (v - 128) / 30 ∧
    backlightIntensity v = (v - 128) % 30 * 255 / 29 := by
  decide

/-- C4: for every backlight composite byte v in [128, 217] processed as a
setting kind, the selected channel's index equals (v-128)/30, the applied
intensity equals ((v-128) mod 30) * 255 / 29, and exactly one of the red,
green, blue, contrast settings is modified: the selected channel's offset
is set to the intensity and every other field's offset is untouched. -/
theorem backlight_composite_decode (st : Store) (v : Nat)
    (h1 : 128 ≤ v) (h2 : v ≤ 217) :
    (backlightTarget v = .red ∨ backlightTarget v = .green ∨
      backlightTarget v = .blue) ∧
    bandIndex (backlightTarget v) = (v - 128) / 30 ∧
    backlightIntensity v = (v - 128) % 30 * 255 / 29 ∧
    (step ⟨.awaitSettingKind, st⟩ v).1.state = .text ∧
    (step ⟨.awaitSettingKind, st⟩ v).1.store (loc (backlightTarget v)) =
      backlightIntensity v ∧
    ∀ f : Field, f ≠ backlightTarget v →
      (step ⟨.awaitSettingKind, st⟩ v).1.store (loc f) = st (loc f) := by
  obtain ⟨ht, hi, hs⟩ := backlight_decode_pure v (by omega) h1
  have hb : isBacklight v = true := by
    simp only [isBacklight, SPECIAL_RED_MIN, SPECIAL_GREEN_MIN,
      SPECIAL_BLUE_MIN, decide_eq_true_eq]
    omega
  refine ⟨ht, hi, hs, ?_, ?_, ?_⟩
  · simp [step, hb]
  · simp [step, hb, write]
  · intro f hf
    have hne : loc f ≠ loc (backlightTarget v) :=
      fun h => hf (loc_injective f (backlightTarget v) h)
    simp [step, hb, write, hne]

/-- Witness for C4: the composite byte 150 (red band, offset 22) with an
all-zero store. -/
theorem backlight_composite_decode_witness :
    (backlightTarget 150 = .red ∨ backlightTarget 150 = .green ∨
      backlightTarget 150 = .blue) ∧
    bandIndex (backlightTarget 150) = (150 - 128) / 30 ∧
    backlightIntensity 150 = (150 - 128) % 30 * 255 / 29 ∧
    (step ⟨.awaitSettingKind, fun _ => 0⟩ 150).1.state = .text ∧
    (step ⟨.awaitSettingKind, fun _ => 0⟩ 150).1.store
      (loc (backlightTarget 150)) = backlightIntensity 150 ∧
    ∀ f : Field, f ≠ backlightTarget 150 →
      (step ⟨.awaitSettingKind, fun _ => 0⟩ 150).1.store (loc f) =
        (fun _ => 0 : Store) (loc f) :=
  backlight_composite_decode (fun _ => 0) 150 (by decide) (by decide)

end OpenLCD
